import Mathlib

/-!
Shallow embedding of the Biz-analytics backend (src/server.js) and proofs
about its filter builder, query executor and endpoint handlers.

Conventions of the embedding:
* a row of the `sales_data` table is a `SalesRow`; the `order_date` column is
  kept as the (year, month, day) triple the SQL `DATE_FORMAT` patterns
  `%Y-%m` and `%b` read from it; `revenue` is an exact rational;
* an Express `req.query` object is a `Query` of optional strings; a JS
  truthiness test `query.x && query.x !== 'All'` becomes `activeParam`;
* the SQL statements of the handlers are embedded by their semantics over a
  `List SalesRow` table: `WHERE` = `List.filter`, `GROUP BY` + `SUM` =
  `groupSumBy` / `groupSumKey`, `ORDER BY` = `List.insertionSort`,
  `LIMIT n` = `List.take n`, `SELECT DISTINCT c ... ORDER BY c` =
  `sortedDistinct`;
* `parseFloat` on an exact SQL `SUM` is the identity on the rational value,
  and `(x).toFixed(1)` followed by `parseFloat` is `round1`.
-/

namespace Biz

/-- One record of the `sales_data` table, with the columns the server reads:
`order_id`, `customer_id`, `order_date` (as year/month/day), `region`,
`product_name`, `sales_channel`, `product_category`, `customer_tier`,
`revenue`. -/
structure SalesRow where
  order_id : Nat
  customer_id : Nat
  year : Nat
  month : Nat
  day : Nat
  region : String
  product_name : String
  sales_channel : String
  product_category : String
  customer_tier : String
  revenue : ℚ
deriving DecidableEq

/-- An Express `req.query` object, restricted to the parameters the server
mentions: the four recognized filters plus a customer-tier parameter that
`buildFilter` deliberately ignores (see the note at src/server.js line 72).
`none` is an absent parameter; `some s` a present one with value `s`. -/
structure Query where
  region : Option String
  product : Option String
  channel : Option String
  category : Option String
  tier : Option String
deriving DecidableEq

/-- The query object with no parameter present. -/
def qEmpty : Query := ⟨none, none, none, none, none⟩

/-- JS test `query.x && query.x !== 'All'`: the parameter is present, truthy
(a present empty string is falsy in JS) and not the sentinel `'All'`. -/
def activeParam : Option String → Bool
  | none => false
  | some s => !(s == "") && !(s == "All")

/-- Return value of `buildFilter`: the `whereClause` string and the
positional `params` array. -/
structure Filter where
  whereClause : String
  params : List String
deriving DecidableEq

/-- Embedding of `buildFilter` (src/server.js lines 48-76): push one
`column = ?` fragment and one parameter per active filter, in the fixed
order region, product, channel, category, then join the fragments with
`' AND '` after a `'WHERE '` prefix, or return the empty string when no
filter is active. -/
def buildFilter (query : Query) : Filter :=
  let acc1 : List String × List String :=
    if activeParam query.region then
      (["region = ?"], [query.region.getD ""]) else ([], [])
  let acc2 : List String × List String :=
    if activeParam query.product then
      (acc1.1 ++ ["product_name = ?"], acc1.2 ++ [query.product.getD ""]) else acc1
  let acc3 : List String × List String :=
    if activeParam query.channel then
      (acc2.1 ++ ["sales_channel = ?"], acc2.2 ++ [query.channel.getD ""]) else acc2
  let acc4 : List String × List String :=
    if activeParam query.category then
      (acc3.1 ++ ["product_category = ?"], acc3.2 ++ [query.category.getD ""]) else acc3
  { whereClause :=
      if 0 < acc4.1.length then "WHERE " ++ String.intercalate " AND " acc4.1 else ""
    params := acc4.2 }

/-- Number of `?` placeholders in a SQL string. -/
def countQ (s : String) : Nat := s.toList.countP (fun c => c == '?')

/-- The one-element contribution of a parameter to the `params` array. -/
def optValue (p : Option String) : List String :=
  if activeParam p then [p.getD ""] else []

/-- The one-element contribution of a parameter to the fragment list. -/
def optFrag (p : Option String) (frag : String) : List String :=
  if activeParam p then [frag] else []

/-- Semantics of the SQL predicate `buildFilter` generates: a row satisfies
the generated `WHERE` clause iff it matches every active equality filter. -/
def rowMatches (q : Query) (r : SalesRow) : Bool :=
  (!(activeParam q.region) || (r.region == q.region.getD "")) &&
  (!(activeParam q.product) || (r.product_name == q.product.getD "")) &&
  (!(activeParam q.channel) || (r.sales_channel == q.channel.getD "")) &&
  (!(activeParam q.category) || (r.product_category == q.category.getD ""))

/-- Rows of `sales_data` that satisfy the filter built from `q`. -/
def filteredRows (db : List SalesRow) (q : Query) : List SalesRow :=
  db.filter (rowMatches q)

/-- Semantics of `SUM(revenue)` over a row set (`NULL || 0` on the empty
set coincides with the empty sum). -/
def sumRevenue (rows : List SalesRow) : ℚ := (rows.map (·.revenue)).sum

/-- One result row of a `SELECT label, SUM(revenue) AS value` statement. -/
structure LVRow where
  label : String
  value : ℚ
deriving DecidableEq

/-- Semantics of `SELECT key, SUM(revenue) FROM rows GROUP BY key` for a
string-valued key column: one output row per distinct key value. -/
def groupSumBy (key : SalesRow → String) (rows : List SalesRow) : List LVRow :=
  ((rows.map key).dedup).map
    (fun k => ⟨k, sumRevenue (rows.filter (fun r => key r == k))⟩)

/-- The `%Y-%m` month key of a row: a number that orders year-month pairs
exactly as the `'YYYY-MM'` strings produced by `DATE_FORMAT` order. -/
def ymKey (r : SalesRow) : Nat := r.year * 12 + (r.month - 1)

/-- Semantics of grouping by the `%Y-%m` month key with `SUM(revenue)`. -/
def groupSumMonth (rows : List SalesRow) : List (Nat × ℚ) :=
  ((rows.map ymKey).dedup).map
    (fun k => (k, sumRevenue (rows.filter (fun r => ymKey r == k))))

/-- Ascending order on month keys, for `ORDER BY month_year ASC`. -/
def keyLE (a b : Nat × ℚ) : Prop := a.1 ≤ b.1

instance : DecidableRel keyLE := fun a b => Nat.decLe a.1 b.1

instance : IsTotal (Nat × ℚ) keyLE := ⟨fun a b => Nat.le_total a.1 b.1⟩

instance : IsTrans (Nat × ℚ) keyLE := ⟨fun _ _ _ h h' => Nat.le_trans h h'⟩

/-- Descending order on aggregated values, for `ORDER BY value DESC`. -/
def valGE (a b : LVRow) : Prop := b.value ≤ a.value

instance : DecidableRel valGE := fun a b => inferInstanceAs (Decidable (b.value ≤ a.value))

instance : IsTotal LVRow valGE := ⟨fun a b => le_total b.value a.value⟩

instance : IsTrans LVRow valGE := ⟨fun _ _ _ h h' => le_trans h' h⟩

/-- Rank of a tier in `FIELD(customer_tier, 'Platinum', 'Gold', 'Silver',
'Bronze')`: its 1-based position in the list, 0 when absent. -/
def tierRank (t : String) : Nat :=
  if t == "Platinum" then 1 else if t == "Gold" then 2
  else if t == "Silver" then 3 else if t == "Bronze" then 4 else 0

/-- Order on tier rows induced by the `FIELD` expression. -/
def tierLE (a b : LVRow) : Prop := tierRank a.label ≤ tierRank b.label

instance : DecidableRel tierLE := fun a b => Nat.decLe (tierRank a.label) (tierRank b.label)

instance : IsTotal LVRow tierLE := ⟨fun a b => Nat.le_total (tierRank a.label) (tierRank b.label)⟩

instance : IsTrans LVRow tierLE := ⟨fun _ _ _ h h' => Nat.le_trans h h'⟩

/-- Semantics of `SELECT DISTINCT c FROM sales_data ORDER BY c`: the
distinct values of the column, sorted ascending. -/
def sortedDistinct (l : List String) : List String :=
  List.insertionSort (· ≤ ·) l.dedup

/-- The `%b` month abbreviation `DATE_FORMAT` produces for month `m`. -/
def monthAbbrev : Nat → String
  | 1 => "Jan" | 2 => "Feb" | 3 => "Mar" | 4 => "Apr" | 5 => "May" | 6 => "Jun"
  | 7 => "Jul" | 8 => "Aug" | 9 => "Sep" | 10 => "Oct" | 11 => "Nov" | 12 => "Dec"
  | _ => ""

/-- The `%b` abbreviation of the month a month key encodes. -/
def monthAbbrevOfKey (k : Nat) : String := monthAbbrev (k % 12 + 1)

/-- Model of `parseFloat((x).toFixed(1))`: round to one decimal place. -/
def round1 (x : ℚ) : ℚ := (round (x * 10) : ℚ) / 10

/-- Embedding of the growth computation of the `/api/kpis` handler
(src/server.js lines 108-116): 0 unless there are at least two monthly
rows and the FIRST row's revenue is positive, else the rounded percentage
change from the FIRST row to the LAST row of the month-ascending list. -/
def computeGrowth (rows : List (Nat × ℚ)) : ℚ :=
  if 2 ≤ rows.length then
    match rows.head?, rows.getLast? with
    | some f, some l => if 0 < f.2 then round1 ((l.2 - f.2) / f.2 * 100) else 0
    | _, _ => 0
  else 0

/-- Result rows of the kpis growth statement: monthly revenue of the
filtered rows, grouped by `%Y-%m` and ordered by month ascending. -/
def growthRows (db : List SalesRow) (q : Query) : List (Nat × ℚ) :=
  List.insertionSort keyLE (groupSumMonth (filteredRows db q))

/-- The `growth` field `/api/kpis` responds with. -/
def kpisGrowth (db : List SalesRow) (q : Query) : ℚ := computeGrowth (growthRows db q)

/-!
Connection accounting. `queryDatabase` opens a fresh connection per call
(src/server.js line 26) and ends it in the `finally` block (line 34).
`DbState` records, across the statements a request runs, which connection
ids were acquired and which were ended.
-/

/-- Connection ledger threaded through a request's statements. -/
structure DbState where
  nextConn : Nat
  acquired : List Nat
  ended : List Nat
deriving DecidableEq

/-- Ledger at the start of a request: no connection touched yet. -/
def dbState0 : DbState := ⟨0, [], []⟩

/-- Success-path semantics of one `queryDatabase` call: acquire one fresh
connection, evaluate the statement `interp` against the table, end the
connection, return the rows. -/
def runStatementS {α : Type} (db : List SalesRow) (interp : List SalesRow → α)
    (s : DbState) : α × DbState :=
  (interp db, ⟨s.nextConn + 1, s.acquired ++ [s.nextConn], s.ended ++ [s.nextConn]⟩)

/-- Flat KPI response body of `/api/kpis`. -/
structure KpisResp where
  revenue : ℚ
  orders : Nat
  customers : Nat
  growth : ℚ
deriving DecidableEq

/-- Semantics of the first kpis statement: `SUM(revenue)`,
`COUNT(order_id)`, `COUNT(DISTINCT customer_id)` over the filtered rows. -/
def kpiAggregate (q : Query) (db : List SalesRow) : ℚ × Nat × Nat :=
  let rows := filteredRows db q
  (sumRevenue rows, rows.length, ((rows.map (·.customer_id)).dedup).length)

/-- Embedding of the `/api/kpis` handler: two `queryDatabase` calls, then
the flat KPI object. -/
def kpisHandler (db : List SalesRow) (q : Query) (s : DbState) : KpisResp × DbState :=
  let r1 := runStatementS db (kpiAggregate q) s
  let r2 := runStatementS db (fun d => List.insertionSort keyLE (groupSumMonth (filteredRows d q))) r1.2
  (⟨r1.1.1, r1.1.2.1, r1.1.2.2, computeGrowth r2.1⟩, r2.2)

/-- Chart response body `{labels, data}`. -/
structure ChartResp where
  labels : List String
  data : List ℚ
deriving DecidableEq

/-- The reshaping every chart handler performs: `labels` are the `label`
fields in row order, `data` the parsed `value` fields in row order. -/
def reshape (rows : List LVRow) : ChartResp :=
  ⟨rows.map (·.label), rows.map (·.value)⟩

/-- Result rows of the `/api/sales` statement: revenue by month, labelled
with the `%b` abbreviation, ordered by `%Y-%m` ascending. -/
def salesRows (q : Query) (db : List SalesRow) : List LVRow :=
  (List.insertionSort keyLE (groupSumMonth (filteredRows db q))).map
    (fun p => ⟨monthAbbrevOfKey p.1, p.2⟩)

/-- Result rows of the `/api/products` statement: revenue by product name,
ordered by value descending, limited to 5. -/
def productsRows (q : Query) (db : List SalesRow) : List LVRow :=
  (List.insertionSort valGE (groupSumBy (·.product_name) (filteredRows db q))).take 5

/-- Result rows of the `/api/regions` statement: revenue by region (the
statement has no `ORDER BY`; rows appear in first-occurrence group order). -/
def regionsRows (q : Query) (db : List SalesRow) : List LVRow :=
  groupSumBy (·.region) (filteredRows db q)

/-- Result rows of the `/api/channels` statement: revenue by sales
channel, ordered by value descending. -/
def channelsRows (q : Query) (db : List SalesRow) : List LVRow :=
  List.insertionSort valGE (groupSumBy (·.sales_channel) (filteredRows db q))

/-- Result rows of the `/api/tiers` statement: revenue by customer tier,
ordered by the `FIELD` tier rank. -/
def tiersRows (q : Query) (db : List SalesRow) : List LVRow :=
  List.insertionSort tierLE (groupSumBy (·.customer_tier) (filteredRows db q))

/-- Embedding of the `/api/sales` handler. -/
def salesHandler (db : List SalesRow) (q : Query) (s : DbState) : ChartResp × DbState :=
  let r := runStatementS db (salesRows q) s
  (reshape r.1, r.2)

/-- Embedding of the `/api/products` handler. -/
def productsHandler (db : List SalesRow) (q : Query) (s : DbState) : ChartResp × DbState :=
  let r := runStatementS db (productsRows q) s
  (reshape r.1, r.2)

/-- Embedding of the `/api/regions` handler. -/
def regionsHandler (db : List SalesRow) (q : Query) (s : DbState) : ChartResp × DbState :=
  let r := runStatementS db (regionsRows q) s
  (reshape r.1, r.2)

/-- Embedding of the `/api/channels` handler. -/
def channelsHandler (db : List SalesRow) (q : Query) (s : DbState) : ChartResp × DbState :=
  let r := runStatementS db (channelsRows q) s
  (reshape r.1, r.2)

/-- Embedding of the `/api/tiers` handler. -/
def tiersHandler (db : List SalesRow) (q : Query) (s : DbState) : ChartResp × DbState :=
  let r := runStatementS db (tiersRows q) s
  (reshape r.1, r.2)

/-- Response body of `/api/metadata`. -/
structure MetadataResp where
  regions : List String
  products : List String
  channels : List String
  categories : List String
deriving DecidableEq

/-- Embedding of the `/api/metadata` handler: four `SELECT DISTINCT ...
ORDER BY` statements, one `queryDatabase` call each. -/
def metadataHandler (db : List SalesRow) (s : DbState) : MetadataResp × DbState :=
  let r1 := runStatementS db (fun d => sortedDistinct (d.map (·.region))) s
  let r2 := runStatementS db (fun d => sortedDistinct (d.map (·.product_name))) r1.2
  let r3 := runStatementS db (fun d => sortedDistinct (d.map (·.sales_channel))) r2.2
  let r4 := runStatementS db (fun d => sortedDistinct (d.map (·.product_category))) r3.2
  (⟨r1.1, r2.1, r3.1, r4.1⟩, r4.2)

/-!
Failure-aware model of `queryDatabase` (src/server.js lines 23-36), for
the release-on-every-path property: the `try` body may fail at
`createConnection` or at `execute`; the `catch` rethrows a fixed message;
the `finally` ends the connection when one was assigned.
-/

/-- A database connection handle. -/
structure Conn where
  id : Nat
deriving DecidableEq

/-- Abstract data store: connecting may fail; executing a parameterized
statement on a connection may fail or return rows of type `ρ`. -/
structure DbEnv (ρ : Type) where
  connect : Except String Conn
  execute : Conn → String → List String → Except String ρ

/-- The message `queryDatabase` rethrows on any failure. -/
def dbErrorMessage : String :=
  "Failed to fetch data from MySQL. Check database connection and SQL syntax."

/-- What one `queryDatabase` call produced: its result or error, and the
connections it ended. -/
structure QueryOutcome (ρ : Type) where
  result : Except String ρ
  ended : List Conn

/-- Embedding of `queryDatabase`: connect, execute, return rows; on any
throw, rethrow `dbErrorMessage`; in `finally`, end the connection iff one
was assigned (a failed `createConnection` leaves it undefined). -/
def queryDatabase {ρ : Type} (env : DbEnv ρ) (sql : String) (params : List String) :
    QueryOutcome ρ :=
  match env.connect with
  | .error _ => ⟨.error dbErrorMessage, []⟩
  | .ok c =>
    match env.execute c sql params with
    | .ok rows => ⟨.ok rows, [c]⟩
    | .error _ => ⟨.error dbErrorMessage, [c]⟩

/-- A small concrete `sales_data` table: one product sold in three
consecutive months with monthly revenues 100, 50, 200. -/
def exDb : List SalesRow :=
  [⟨1, 1, 2024, 1, 15, "East", "Widget", "Online", "Gadgets", "Gold", 100⟩,
   ⟨2, 2, 2024, 2, 15, "East", "Widget", "Online", "Gadgets", "Gold", 50⟩,
   ⟨3, 3, 2024, 3, 15, "East", "Widget", "Online", "Gadgets", "Gold", 200⟩]

/-- A data store whose connection and statement both succeed, returning no
rows. -/
def envOk : DbEnv (List LVRow) := ⟨.ok ⟨0⟩, fun _ _ _ => .ok []⟩

/-!
Theorems, one per claim of the specification review, with shared helper
lemmas first.
-/

/-- The filter predicate with no active parameter accepts every row. -/
theorem rowMatches_of_inactive (q : Query) (r : SalesRow)
    (hr : q.region = none) (hp : q.product = none)
    (hc : q.channel = none) (hg : q.category = none) :
    rowMatches q r = true := by
  simp [rowMatches, hr, hp, hc, hg, activeParam]

/-- C1: for every query object, `buildFilter` returns a pair
(whereClause, params) with as many `?` placeholders as parameters; the
parameter values appear in the fixed order region, product, channel,
category, restricted to the active ones; the fragments are joined with
`' AND '`; and the whereClause is empty or begins with `'WHERE '`. -/
theorem buildFilter_wellformed (q : Query) :
    countQ (buildFilter q).whereClause = (buildFilter q).params.length ∧
    (buildFilter q).params =
      optValue q.region ++ optValue q.product ++ optValue q.channel ++ optValue q.category ∧
    ((buildFilter q).whereClause = "" ∨
      (buildFilter q).whereClause = "WHERE " ++ String.intercalate " AND "
        (optFrag q.region "region = ?" ++ optFrag q.product "product_name = ?" ++
          optFrag q.channel "sales_channel = ?" ++ optFrag q.category "product_category = ?")) ∧
    ((buildFilter q).whereClause = "" ∨ (buildFilter q).whereClause.take 6 = "WHERE ") := by
  rcases hr : activeParam q.region <;> rcases hp : activeParam q.product <;>
    rcases hc : activeParam q.channel <;> rcases hg : activeParam q.category <;>
    simp [buildFilter, optValue, optFrag, hr, hp, hc, hg, countQ] <;> decide

/-- C5: `buildFilter` reads only the four recognized parameters: two query
objects agreeing on region, product, channel and category produce identical
output, whatever the customer-tier parameter holds; and it is deterministic. -/
theorem buildFilter_pure (q₁ q₂ : Query)
    (hr : q₁.region = q₂.region) (hp : q₁.product = q₂.product)
    (hc : q₁.channel = q₂.channel) (hg : q₁.category = q₂.category) :
    buildFilter q₁ = buildFilter q₂ ∧ buildFilter q₁ = buildFilter q₁ := by
  constructor
  · simp [buildFilter, hr, hp, hc, hg]
  · rfl

/-- Witness for C5 at two concrete queries differing only in the tier
parameter. -/
theorem buildFilter_pure_witness :
    buildFilter ⟨some "East", none, none, none, some "Gold"⟩ =
      buildFilter ⟨some "East", none, none, none, none⟩ ∧
    buildFilter ⟨some "East", none, none, none, some "Gold"⟩ =
      buildFilter ⟨some "East", none, none, none, some "Gold"⟩ :=
  buildFilter_pure ⟨some "East", none, none, none, some "Gold"⟩
    ⟨some "East", none, none, none, none⟩ rfl rfl rfl rfl

/-- C9: `'All'` is an identity sentinel: for each recognized parameter,
setting it to `'All'` gives the same filter as leaving it absent. -/
theorem buildFilter_all_sentinel (q : Query) :
    buildFilter { q with region := some "All" } = buildFilter { q with region := none } ∧
    buildFilter { q with product := some "All" } = buildFilter { q with product := none } ∧
    buildFilter { q with channel := some "All" } = buildFilter { q with channel := none } ∧
    buildFilter { q with category := some "All" } = buildFilter { q with category := none } := by
  refine ⟨?_, ?_, ?_, ?_⟩ <;> simp [buildFilter, activeParam]

/-- C6: when none of the four recognized parameters is present,
`buildFilter` returns the empty whereClause and no parameters, the
generated predicate accepts every row, and the filtered row set is the
whole table. -/
theorem noFilters_whole_table (db : List SalesRow) (q : Query)
    (hr : q.region = none) (hp : q.product = none)
    (hc : q.channel = none) (hg : q.category = none) :
    buildFilter q = ⟨"", []⟩ ∧
    (∀ r : SalesRow, rowMatches q r = true) ∧
    filteredRows db q = db := by
  refine ⟨?_, fun r => rowMatches_of_inactive q r hr hp hc hg, ?_⟩
  · simp [buildFilter, hr, hp, hc, hg, activeParam]
  · simp only [filteredRows]
    rw [List.filter_eq_self.mpr]
    intro a _
    exact rowMatches_of_inactive q a hr hp hc hg

/-- Witness for C6 at the example table and a query whose only present
parameter is the unrecognized tier. -/
theorem noFilters_whole_table_witness :
    buildFilter ⟨none, none, none, none, some "Gold"⟩ = ⟨"", []⟩ ∧
    (∀ r : SalesRow, rowMatches ⟨none, none, none, none, some "Gold"⟩ r = true) ∧
    filteredRows exDb ⟨none, none, none, none, some "Gold"⟩ = exDb :=
  noFilters_whole_table exDb ⟨none, none, none, none, some "Gold"⟩ rfl rfl rfl rfl

/-- C3: whenever `queryDatabase` acquires a connection, that connection is
ended exactly once, on the success path and on the failure path alike, and
the result propagates the statement's rows or the rethrown error. -/
theorem queryDatabase_releases {ρ : Type} (env : DbEnv ρ) (sql : String)
    (ps : List String) (c : Conn) (h : env.connect = .ok c) :
    (queryDatabase env sql ps).ended = [c] ∧
    (queryDatabase env sql ps).result =
      (match env.execute c sql ps with
        | .ok rows => .ok rows
        | .error _ => .error dbErrorMessage) := by
  unfold queryDatabase
  rw [h]
  rcases hx : env.execute c sql ps with e | rows <;> simp [hx]

/-- Witness for C3 at a concrete data store that connects successfully. -/
theorem queryDatabase_releases_witness :
    (queryDatabase envOk "SELECT 1" []).ended = [⟨0⟩] ∧
    (queryDatabase envOk "SELECT 1" []).result =
      (match envOk.execute ⟨0⟩ "SELECT 1" [] with
        | .ok rows => .ok rows
        | .error _ => .error dbErrorMessage) :=
  queryDatabase_releases envOk "SELECT 1" [] ⟨0⟩ rfl

/-- C4 counterexample: a `/api/kpis` request acquires two connections and a
`/api/metadata` request four, so "exactly one connection per request" fails
on the concrete example table with no filters. -/
theorem request_connections_counterexample :
    (kpisHandler exDb qEmpty dbState0).2.acquired.length = 2 ∧
    (metadataHandler exDb dbState0).2.acquired.length = 4 ∧
    (2 : Nat) ≠ 1 ∧ (4 : Nat) ≠ 1 := by
  refine ⟨rfl, rfl, ?_, ?_⟩ <;> decide

/-- C4 amended: each `queryDatabase` call acquires exactly one fresh
connection and ends it; per request the chart endpoints acquire one
connection, `/api/kpis` two and `/api/metadata` four, all of them ended. -/
theorem connections_per_statement (db : List SalesRow) (q : Query) (s : DbState) :
    (kpisHandler db q s).2.acquired = s.acquired ++ [s.nextConn, s.nextConn + 1] ∧
    (kpisHandler db q s).2.ended = s.ended ++ [s.nextConn, s.nextConn + 1] ∧
    (salesHandler db q s).2.acquired = s.acquired ++ [s.nextConn] ∧
    (salesHandler db q s).2.ended = s.ended ++ [s.nextConn] ∧
    (productsHandler db q s).2.acquired = s.acquired ++ [s.nextConn] ∧
    (productsHandler db q s).2.ended = s.ended ++ [s.nextConn] ∧
    (regionsHandler db q s).2.acquired = s.acquired ++ [s.nextConn] ∧
    (regionsHandler db q s).2.ended = s.ended ++ [s.nextConn] ∧
    (channelsHandler db q s).2.acquired = s.acquired ++ [s.nextConn] ∧
    (channelsHandler db q s).2.ended = s.ended ++ [s.nextConn] ∧
    (tiersHandler db q s).2.acquired = s.acquired ++ [s.nextConn] ∧
    (tiersHandler db q s).2.ended = s.ended ++ [s.nextConn] ∧
    (metadataHandler db s).2.acquired =
      s.acquired ++ [s.nextConn, s.nextConn + 1, s.nextConn + 2, s.nextConn + 3] ∧
    (metadataHandler db s).2.ended =
      s.ended ++ [s.nextConn, s.nextConn + 1, s.nextConn + 2, s.nextConn + 3] := by
  simp [kpisHandler, salesHandler, productsHandler, regionsHandler, channelsHandler,
    tiersHandler, metadataHandler, runStatementS]

/-- C2 counterexample: on the example table the filtered monthly revenues
are 100, 50, 200 in month order, the code's growth figure is 100, yet the
percentage change across each pair of adjacent months is -50 and 300 — so
the growth figure is not a change between consecutive months. -/
theorem kpis_growth_counterexample :
    (growthRows exDb qEmpty).map Prod.snd = [100, 50, 200] ∧
    kpisGrowth exDb qEmpty = 100 ∧
    round1 (((50 : ℚ) - 100) / 100 * 100) = -50 ∧
    round1 (((200 : ℚ) - 50) / 50 * 100) = 300 ∧
    (-50 : ℚ) ≠ 100 ∧ (300 : ℚ) ≠ 100 := by
  have h : growthRows exDb qEmpty = [(24288, 100), (24289, 50), (24290, 200)] := by
    simp [growthRows, groupSumMonth, filteredRows, rowMatches, qEmpty, activeParam, exDb,
      sumRevenue, ymKey, List.insertionSort, List.orderedInsert, keyLE]
  refine ⟨by rw [h]; rfl, ?_, ?_, ?_, by norm_num, by norm_num⟩
  · rw [kpisGrowth, h]
    norm_num [computeGrowth, round1, round_eq]
  · norm_num [round1, round_eq]
  · norm_num [round1, round_eq]

/-- C2 amended: the monthly rows are sorted by month ascending, and the
growth figure is the rounded percentage change from the first (earliest)
to the last (latest) monthly revenue of the filtered set, provided at
least two months exist and the first month's revenue is positive. -/
theorem kpis_growth_first_to_last (db : List SalesRow) (q : Query) (f l : Nat × ℚ)
    (hf : (growthRows db q).head? = some f) (hl : (growthRows db q).getLast? = some l)
    (hlen : 2 ≤ (growthRows db q).length) (hpos : 0 < f.2) :
    List.Sorted keyLE (growthRows db q) ∧
    kpisGrowth db q = round1 ((l.2 - f.2) / f.2 * 100) := by
  constructor
  · unfold growthRows
    exact List.sorted_insertionSort keyLE _
  · unfold kpisGrowth computeGrowth
    rw [if_pos hlen, hf, hl]
    exact if_pos hpos

/-- Witness for the amended C2 at the example table: growth is the change
from the earliest month (revenue 100) to the latest month (revenue 200). -/
theorem kpis_growth_first_to_last_witness :
    List.Sorted keyLE (growthRows exDb qEmpty) ∧
    kpisGrowth exDb qEmpty = round1 ((((24290 : Nat), (200 : ℚ)).2 - ((24288 : Nat), (100 : ℚ)).2) / ((24288 : Nat), (100 : ℚ)).2 * 100) := by
  have h : growthRows exDb qEmpty = [(24288, 100), (24289, 50), (24290, 200)] := by
    simp [growthRows, groupSumMonth, filteredRows, rowMatches, qEmpty, activeParam, exDb,
      sumRevenue, ymKey, List.insertionSort, List.orderedInsert, keyLE]
  exact kpis_growth_first_to_last exDb qEmpty (24288, 100) (24290, 200)
    (by rw [h]; rfl) (by rw [h]; rfl) (by rw [h]; norm_num) (by norm_num)

/-- C7: every chart handler responds with `reshape` of its result rows, and
`reshape` yields equal-length `labels` and `data` arrays holding, in row
order, the label field and the value field of each row. -/
theorem charts_labels_data (rows : List LVRow) (db : List SalesRow) (q : Query)
    (s : DbState) (i : Nat) :
    (reshape rows).labels.length = rows.length ∧
    (reshape rows).data.length = rows.length ∧
    (reshape rows).labels[i]? = (rows[i]?).map LVRow.label ∧
    (reshape rows).data[i]? = (rows[i]?).map LVRow.value ∧
    (salesHandler db q s).1 = reshape (salesRows q db) ∧
    (productsHandler db q s).1 = reshape (productsRows q db) ∧
    (regionsHandler db q s).1 = reshape (regionsRows q db) ∧
    (channelsHandler db q s).1 = reshape (channelsRows q db) ∧
    (tiersHandler db q s).1 = reshape (tiersRows q db) := by
  refine ⟨?_, ?_, ?_, ?_, rfl, rfl, rfl, rfl, rfl⟩ <;> simp [reshape]

/-- The metadata lists are sorted ascending. -/
theorem sortedDistinct_sorted (l : List String) :
    List.Sorted (· ≤ ·) (sortedDistinct l) :=
  List.sorted_insertionSort _ _

/-- The metadata lists carry no duplicate. -/
theorem sortedDistinct_nodup (l : List String) : (sortedDistinct l).Nodup :=
  ((List.perm_insertionSort _ _).nodup_iff).mpr (List.nodup_dedup l)

/-- The metadata lists hold exactly the values of the column. -/
theorem sortedDistinct_mem (l : List String) (x : String) :
    x ∈ sortedDistinct l ↔ x ∈ l := by
  rw [sortedDistinct, List.mem_insertionSort, List.mem_dedup]

/-- C8: `/api/metadata` returns, under `regions`, `products`, `channels`
and `categories`, a sorted duplicate-free list holding exactly the values
of the `region`, `product_name`, `sales_channel` and `product_category`
columns respectively. -/
theorem metadata_distinct_sorted (db : List SalesRow) (s : DbState) (x : String) :
    (List.Sorted (· ≤ ·) (metadataHandler db s).1.regions ∧
      (metadataHandler db s).1.regions.Nodup ∧
      (x ∈ (metadataHandler db s).1.regions ↔ x ∈ db.map (·.region))) ∧
    (List.Sorted (· ≤ ·) (metadataHandler db s).1.products ∧
      (metadataHandler db s).1.products.Nodup ∧
      (x ∈ (metadataHandler db s).1.products ↔ x ∈ db.map (·.product_name))) ∧
    (List.Sorted (· ≤ ·) (metadataHandler db s).1.channels ∧
      (metadataHandler db s).1.channels.Nodup ∧
      (x ∈ (metadataHandler db s).1.channels ↔ x ∈ db.map (·.sales_channel))) ∧
    (List.Sorted (· ≤ ·) (metadataHandler db s).1.categories ∧
      (metadataHandler db s).1.categories.Nodup ∧
      (x ∈ (metadataHandler db s).1.categories ↔ x ∈ db.map (·.product_category))) := by
  refine ⟨⟨?_, ?_, ?_⟩, ⟨?_, ?_, ?_⟩, ⟨?_, ?_, ?_⟩, ⟨?_, ?_, ?_⟩⟩ <;>
    first
      | exact sortedDistinct_sorted _
      | exact sortedDistinct_nodup _
      | exact sortedDistinct_mem _ x

/-- Each group row of `groupSumBy` carries the revenue sum of the rows
with its label as key. -/
theorem groupSumBy_value {key : SalesRow → String} {rows : List SalesRow} {r : LVRow}
    (h : r ∈ groupSumBy key rows) :
    r.value = sumRevenue (rows.filter (fun x => key x == r.label)) := by
  rcases List.mem_map.mp h with ⟨k, _, hEq⟩
  subst hEq
  rfl

/-- C10: `/api/products` returns at most five label/value pairs, its data
array is non-increasing, and each returned value is the summed revenue of
the rows with the paired product name under the active filter. -/
theorem products_top5 (db : List SalesRow) (q : Query) (s : DbState) (r : LVRow)
    (hr : r ∈ productsRows q db) :
    (productsHandler db q s).1.labels.length ≤ 5 ∧
    (productsHandler db q s).1.data.length ≤ 5 ∧
    List.Sorted (· ≥ ·) (productsHandler db q s).1.data ∧
    r.value = sumRevenue ((filteredRows db q).filter
      (fun x => x.product_name == r.label)) := by
  have hresp : (productsHandler db q s).1 = reshape (productsRows q db) := rfl
  have hsorted : List.Sorted valGE
      (List.insertionSort valGE (groupSumBy (·.product_name) (filteredRows db q))) :=
    List.sorted_insertionSort valGE _
  have htake : List.Sorted valGE (productsRows q db) :=
    List.Pairwise.sublist (List.take_sublist 5 _) hsorted
  refine ⟨?_, ?_, ?_, ?_⟩
  · rw [hresp]
    simp only [reshape, List.length_map, productsRows]
    exact le_trans (List.length_take_le 5 _) (le_refl 5)
  · rw [hresp]
    simp only [reshape, List.length_map, productsRows]
    exact le_trans (List.length_take_le 5 _) (le_refl 5)
  · rw [hresp]
    simp only [reshape]
    exact List.pairwise_map.mpr htake
  · have hmem : r ∈ groupSumBy (·.product_name) (filteredRows db q) :=
      (List.mem_insertionSort valGE).mp (List.mem_of_mem_take hr)
    exact groupSumBy_value hmem

/-- Witness for C10 at the example table, whose only product under the
empty filter is Widget with summed revenue 350. -/
theorem products_top5_witness :
    (productsHandler exDb qEmpty dbState0).1.labels.length ≤ 5 ∧
    (productsHandler exDb qEmpty dbState0).1.data.length ≤ 5 ∧
    List.Sorted (· ≥ ·) (productsHandler exDb qEmpty dbState0).1.data ∧
    (⟨"Widget", 350⟩ : LVRow).value = sumRevenue ((filteredRows exDb qEmpty).filter
      (fun x => x.product_name == (⟨"Widget", 350⟩ : LVRow).label)) := by
  have h : productsRows qEmpty exDb = [⟨"Widget", 350⟩] := by
    simp [productsRows, groupSumBy, filteredRows, rowMatches, qEmpty, activeParam, exDb,
      sumRevenue, List.insertionSort, List.orderedInsert, valGE]
    norm_num
  exact products_top5 exDb qEmpty dbState0 ⟨"Widget", 350⟩ (by rw [h]; exact List.mem_singleton.mpr rfl)

end Biz
